import Mathlib

/-!
Shallow embedding of the SmartQuiz evaluation tool
(`semantic_evaluator.py` and `text_processor.py`).

Modelling conventions:
* Python `str` values are Lean `String`s; Python string primitives
  (`lower`, `strip`, `split`, `join`) are modelled at the ASCII level.
* Python `float` arithmetic is modelled as exact rational (`ℚ`) arithmetic.
* Python `set`s of tokens are `Finset String`.
* Python exceptions are `Except PyErr`.  Functions that are pure in the
  source are total here; the possibility of a raised exception at a call
  site inside `evaluate`'s `try` block is represented by explicit
  `Option PyErr` fault parameters (`none` means the call returns normally).
* The embedding model (`SentenceTransformer`) is an external capability;
  the cosine similarity its use produces (or the exception it raises) is a
  parameter of `evaluate`.
-/

namespace SmartQuiz

/-- Python exception values: the explicit `RuntimeError` raised by
`evaluate` when the model is not loaded, and arbitrary other exceptions. -/
inductive PyErr where
  | runtimeError : PyErr
  | exception : String → PyErr
deriving DecidableEq

/-! ### Python string primitives (ASCII model) -/

/-- `str.lower()`: character-wise lowering. -/
def pyLower (s : String) : String := String.mk (s.data.map Char.toLower)

/-- Strip leading and trailing whitespace from a character list. -/
def stripChars (l : List Char) : List Char :=
  ((l.dropWhile Char.isWhitespace).reverse.dropWhile Char.isWhitespace).reverse

/-- `str.strip()`. -/
def pyStrip (s : String) : String := String.mk (stripChars s.data)

/-- Accumulator loop for `wsSplit`: `acc` is the reversed current token. -/
def wsSplitAux : List Char → List Char → List (List Char)
  | [], acc => if acc = [] then [] else [acc.reverse]
  | c :: cs, acc =>
    if c.isWhitespace then
      if acc = [] then wsSplitAux cs []
      else acc.reverse :: wsSplitAux cs []
    else wsSplitAux cs (c :: acc)

/-- `str.split()` with no argument: maximal runs of non-whitespace
characters; empty tokens are discarded. -/
def wsSplit (l : List Char) : List (List Char) := wsSplitAux l []

/-- `str.split()` on a `String`. -/
def pySplit (s : String) : List String := (wsSplit s.data).map String.mk

/-- `str.split(sep)` for a single separator character: always returns at
least one (possibly empty) piece, like Python. -/
def splitOnChar (sep : Char) : List Char → List (List Char)
  | [] => [[]]
  | c :: cs =>
    if c = sep then [] :: splitOnChar sep cs
    else
      match splitOnChar sep cs with
      | [] => [[c]]
      | t :: ts => (c :: t) :: ts

/-- `sep.join(parts)`. -/
def pyJoin (sep : String) : List String → String
  | [] => ""
  | a :: l => l.foldl (fun r t => r ++ sep ++ t) a

/-- Prefix test on character lists (used to state "feedback starts with"). -/
def listStarts : List Char → List Char → Bool
  | [], _ => true
  | _ :: _, [] => false
  | a :: as, b :: bs => a = b && listStarts as bs

/-- `s` starts with `p`. -/
def strStarts (p s : String) : Bool := listStarts p.data s.data

/-! ### `SemanticEvaluator` (semantic_evaluator.py) -/

/-- The stop-word set hard-coded in `SemanticEvaluator._evaluate_fallback`. -/
def fallbackStopWords : Finset String :=
  {"the", "a", "an", "and", "or", "but", "in", "on", "at", "to", "for",
   "of", "with", "by", "is", "are", "was", "were"}

/-- The stop-word set hard-coded in `SemanticEvaluator._extract_keywords`. -/
def evalStopWords : Finset String :=
  {"the", "a", "an", "and", "or", "but", "in", "on", "at", "to", "for",
   "of", "with", "by", "is", "are", "was", "were", "be", "been", "have",
   "has", "had", "do", "does", "did", "will", "would", "could", "should",
   "this", "that", "these", "those", "i", "you", "he", "she", "it", "we",
   "they"}

/-- `SemanticEvaluator._extract_keywords`: lowercased whitespace tokens of
length > 2 that are not stop words, as a set. -/
def extract_keywords (text : String) : Finset String :=
  ((pySplit (pyLower text)).toFinset).filter
    (fun word => 2 < word.length ∧ word ∉ evalStopWords)

/-- The `detailed_analysis` dictionary produced by
`SemanticEvaluator._analyze_answer_components` (model path).
`keywords_found` / `keywords_missing` are Python `set`-derived lists whose
iteration order is unspecified; they are kept as `Finset`s here. -/
structure Analysis where
  length_analysis : String
  length_ratio : ℚ
  keyword_coverage : ℚ
  keywords_found : Finset String
  keywords_missing : Finset String
  semantic_coherence : ℚ
deriving DecidableEq

/-- `SemanticEvaluator._analyze_answer_components`. -/
def analyze_answer_components (_question correct_answer user_answer : String) :
    Analysis :=
  let correct_length := correct_answer.length
  let user_length := user_answer.length
  let length_ratio : ℚ := (user_length : ℚ) / ((max correct_length 1 : ℕ) : ℚ)
  let length_analysis :=
    if length_ratio < 3/10 then "Answer is too short"
    else if 2 < length_ratio then "Answer is too long"
    else "Answer length is appropriate"
  let correct_keywords := extract_keywords correct_answer
  let user_keywords := extract_keywords user_answer
  let keyword_coverage : ℚ :=
    if correct_keywords ≠ ∅ then
      (((correct_keywords ∩ user_keywords).card : ℕ) : ℚ) /
        ((correct_keywords.card : ℕ) : ℚ)
    else 0
  let sentences := splitOnChar '.' user_answer.data
  let coherence_score : ℚ :=
    min (((sentences.filter (fun s => 10 < (stripChars s).length)).length : ℚ) /
        ((max sentences.length 1 : ℕ) : ℚ)) 1
  { length_analysis := length_analysis
    length_ratio := length_ratio
    keyword_coverage := keyword_coverage
    keywords_found := correct_keywords ∩ user_keywords
    keywords_missing := correct_keywords \ user_keywords
    semantic_coherence := coherence_score }

/-- `SemanticEvaluator._calculate_final_score`: the weighted pipeline.
The `criteria` parameter has no effect in the source (reserved extension
point). -/
def calculate_final_score (semantic_similarity : ℚ) (analysis : Analysis)
    (_criteria : Option (List String)) : ℚ :=
  let score := semantic_similarity
  let score := score * (7/10) + analysis.keyword_coverage * (3/10)
  let score :=
    if analysis.length_ratio < 3/10 then score * (8/10)
    else if 3 < analysis.length_ratio then score * (9/10)
    else score
  let score := score * (9/10) + analysis.semantic_coherence * (1/10)
  min score 1

/-- `SemanticEvaluator._generate_feedback` (model path).  The order in which
Python iterates the `keywords_missing` set is unspecified; it is modelled
as the sorted order (never relevant to the proved claims). -/
def generate_feedback (score semantic_similarity : ℚ) (analysis : Analysis) :
    String :=
  let band :=
    if 9/10 ≤ score then
      "Excellent answer! You demonstrate a thorough understanding of the concept."
    else if 7/10 ≤ score then
      "Good answer! You show a solid grasp of the main ideas."
    else if 1/2 ≤ score then
      "Fair answer. You understand some key concepts but could improve."
    else
      "Your answer needs improvement. Please review the topic more carefully."
  let feedback_parts := [band]
  let feedback_parts :=
    if analysis.keyword_coverage < 1/2 ∧ analysis.keywords_missing ≠ ∅ then
      feedback_parts ++
        ["Consider including these important concepts: " ++
          pyJoin ", " ((analysis.keywords_missing.sort (· ≤ ·)).take 3) ++ "."]
    else feedback_parts
  let feedback_parts :=
    if analysis.length_ratio < 3/10 then
      feedback_parts ++ ["Your answer could be more detailed and comprehensive."]
    else if 5/2 < analysis.length_ratio then
      feedback_parts ++ ["Try to be more concise while maintaining the key points."]
    else feedback_parts
  let feedback_parts :=
    if semantic_similarity < 2/5 then
      feedback_parts ++
        ["Your answer doesn\x27t closely match the expected response. Review the question and try again."]
    else feedback_parts
  pyJoin " " feedback_parts

/-- `SemanticEvaluator._calculate_confidence`.  The Booleans mirror the
`TRANSFORMERS_AVAILABLE and self.model` test in the source. -/
def calculate_confidence (transformersAvailable modelPresent : Bool)
    (semantic_similarity : ℚ) (analysis : Analysis) (answer_length : ℕ) : ℚ :=
  let confidence := semantic_similarity * 80
  let confidence :=
    if answer_length < 10 then confidence * (7/10)
    else if 1000 < answer_length then confidence * (9/10)
    else confidence
  let confidence := confidence * (8/10) + analysis.keyword_coverage * 20
  let confidence :=
    if transformersAvailable && modelPresent then min confidence 95
    else min confidence 85
  max confidence 10

/-- The shape of the `detailed_analysis` value in an evaluation result: the
three distinct dictionaries built by the empty-answer short-circuit, the
model path, and the fallback path. -/
inductive Detailed where
  | emptyAnswer (length_analysis : String)
      (keyword_coverage semantic_coherence : ℚ)
  | bert (a : Analysis)
  | fallback (length_analysis : String)
      (keyword_coverage semantic_coherence : ℚ)
      (word_overlap total_keywords : ℕ)
deriving DecidableEq

/-- The dictionary returned by `SemanticEvaluator.evaluate`. -/
structure EvalResult where
  score : ℚ
  confidence : ℚ
  feedback : String
  semantic_similarity : ℚ
  detailed_analysis : Detailed
deriving DecidableEq

/-- `SemanticEvaluator._evaluate_fallback`: pure lexical evaluation. -/
def evaluate_fallback (_question correct_answer user_answer : String)
    (_criteria : Option (List String)) : EvalResult :=
  let correct_words :=
    (pySplit (pyLower correct_answer)).toFinset \ fallbackStopWords
  let user_words :=
    (pySplit (pyLower user_answer)).toFinset \ fallbackStopWords
  let word_overlap : ℚ :=
    if correct_words.card = 0 then 0
    else (((correct_words ∩ user_words).card : ℕ) : ℚ) /
      ((correct_words.card : ℕ) : ℚ)
  let length_ratio : ℚ :=
    min ((user_answer.length : ℚ) / ((max correct_answer.length 1 : ℕ) : ℚ)) 1
  let semantic_similarity := word_overlap * (7/10) + length_ratio * (3/10)
  let score := min semantic_similarity 1
  let feedback :=
    if 8/10 ≤ score then "Excellent answer! Shows comprehensive understanding."
    else if 6/10 ≤ score then "Good answer with most key concepts covered."
    else if 2/5 ≤ score then "Fair answer but missing some important points."
    else "Answer needs significant improvement. Please review the topic."
  let confidence := min (score * 80) 85
  { score := score
    confidence := confidence
    feedback := feedback
    semantic_similarity := semantic_similarity
    detailed_analysis := .fallback
      ("Answer length: " ++ toString user_answer.length ++ " chars (expected ~"
        ++ toString correct_answer.length ++ ")")
      word_overlap semantic_similarity
      (correct_words ∩ user_words).card correct_words.card }

/-- Fault parameters: a Python call inside `evaluate`'s `try` block either
returns normally (`none`) or raises (`some e`).  The pure stages of
`_evaluate_with_bert` cannot raise for string inputs, but the `try` block's
behaviour on a hypothetical raise is part of the control-flow contract. -/
structure StageFaults where
  analysisFault : Option PyErr
  scoreFault : Option PyErr
  feedbackFault : Option PyErr
  confidenceFault : Option PyErr
deriving DecidableEq

/-- No stage raises: the actual behaviour of the pure source stages. -/
def noFaults : StageFaults := ⟨none, none, none, none⟩

/-- Run a stage whose pure value is `v`, under a fault parameter. -/
def runStage {α : Type} (fault : Option PyErr) (v : α) : Except PyErr α :=
  match fault with
  | some e => Except.error e
  | none => Except.ok v

/-- `SemanticEvaluator._evaluate_with_bert`.  `encodeSim` is the cosine
similarity computed from the external model's embeddings, or the exception
raised by the model calls (lines 144-153 of the source). -/
def evaluate_with_bert (transformersAvailable modelPresent : Bool)
    (encodeSim : Except PyErr ℚ) (faults : StageFaults)
    (question correct_answer user_answer : String)
    (criteria : Option (List String)) : Except PyErr EvalResult :=
  match encodeSim with
  | .error e => .error e
  | .ok semantic_similarity =>
    match runStage faults.analysisFault
        (analyze_answer_components question correct_answer user_answer) with
    | .error e => .error e
    | .ok analysis =>
      match runStage faults.scoreFault
          (calculate_final_score semantic_similarity analysis criteria) with
      | .error e => .error e
      | .ok score =>
        match runStage faults.feedbackFault
            (generate_feedback score semantic_similarity analysis) with
        | .error e => .error e
        | .ok feedback =>
          match runStage faults.confidenceFault
              (calculate_confidence transformersAvailable modelPresent
                semantic_similarity analysis user_answer.length) with
          | .error e => .error e
          | .ok confidence =>
            .ok { score := score
                  confidence := confidence
                  feedback := feedback
                  semantic_similarity := semantic_similarity
                  detailed_analysis := .bert analysis }

/-- The fixed result returned by the empty-answer short-circuit in
`SemanticEvaluator.evaluate`. -/
def emptyAnswerResult : EvalResult :=
  { score := 0
    confidence := 100
    feedback := "No answer provided."
    semantic_similarity := 0
    detailed_analysis := .emptyAnswer "Empty answer" 0 0 }

/-- `SemanticEvaluator.evaluate`: not-loaded guard, empty-answer
short-circuit, then a `try` block that runs the model path when
`TRANSFORMERS_AVAILABLE and self.model` holds (else the fallback) and
demotes any exception raised inside it to a fallback evaluation. -/
def evaluate (loaded transformersAvailable modelPresent : Bool)
    (encodeSim : Except PyErr ℚ) (faults : StageFaults)
    (question correct_answer user_answer : String)
    (_max_marks : ℕ) (criteria : Option (List String)) :
    Except PyErr EvalResult :=
  if loaded = false then .error .runtimeError
  else if pyStrip user_answer = "" then .ok emptyAnswerResult
  else if transformersAvailable && modelPresent then
    match evaluate_with_bert transformersAvailable modelPresent encodeSim
        faults question correct_answer user_answer criteria with
    | .ok r => .ok r
    | .error _ =>
      .ok (evaluate_fallback question correct_answer user_answer criteria)
  else
    .ok (evaluate_fallback question correct_answer user_answer criteria)

/-- The mutable evaluator state touched by `load_model`. -/
structure EvaluatorState where
  loaded : Bool
  modelPresent : Bool
deriving DecidableEq

/-- `SemanticEvaluator.load_model`: every path (transformers unavailable,
successful load, exception during construction or the test encode) ends
with `self._loaded = True`.  `modelInit` is the outcome of the
`SentenceTransformer(...)` construction, `encodeTest` the outcome of the
test `encode` call; an exception after construction leaves `self.model`
assigned. -/
def load_model (transformersAvailable : Bool)
    (modelInit : Except PyErr Unit) (encodeTest : Except PyErr Unit)
    (st : EvaluatorState) : EvaluatorState :=
  if transformersAvailable = false then { st with loaded := true }
  else
    match modelInit with
    | .error _ => { st with loaded := true }
    | .ok _ =>
      match encodeTest with
      | .error _ => { loaded := true, modelPresent := true }
      | .ok _ => { loaded := true, modelPresent := true }

/-! ### `TextProcessor` (text_processor.py) -/

/-- The fallback stop-word set hard-coded in `TextProcessor.__init__`
(used when NLTK is unavailable; the processor is parameterised over the
stop-word set in the theorems below). -/
def tpStopWords : Finset String :=
  {"the", "a", "an", "and", "or", "but", "in", "on", "at", "to", "for",
   "of", "with", "by", "is", "are", "was", "were", "be", "been", "have",
   "has", "had", "do", "does", "did", "will", "would", "could", "should",
   "this", "that", "these", "those", "i", "you", "he", "she", "it", "we",
   "they", "me", "him", "her", "us", "them", "my", "your", "his",
   "its", "our", "their"}

/-- `TextProcessor._get_common_words`. -/
def common_words : Finset String :=
  {"about", "after", "again", "against", "all", "also", "any", "because",
   "been", "before", "being", "between", "both", "but", "came", "can",
   "come", "could", "did", "each", "even", "every", "first", "from",
   "get", "got", "had", "has", "have", "here", "how", "into", "just",
   "like", "made", "make", "many", "may", "more", "most", "new", "now",
   "only", "other", "over", "said", "same", "see", "some", "such",
   "take", "than", "them", "through", "time", "two", "up", "use",
   "very", "want", "water", "way", "well", "went", "were", "what",
   "when", "where", "which", "while", "who", "why", "work", "would"}

/-- ASCII model of the regex class `\w` (word character). -/
def isWordChar (c : Char) : Bool := c.isAlphanum || c = '_'

/-- The punctuation class `[.,!?;:-]` of `TextProcessor.preprocess`. -/
def isPunctChar (c : Char) : Bool :=
  c = '.' || c = ',' || c = '!' || c = '?' || c = ';' || c = ':' || c = '-'

/-- Replace each maximal run of characters satisfying `p` by the single
character `rep` (models `re.sub(r'X+', rep, ·)` for a character class X). -/
def collapseRuns (p : Char → Bool) (rep : Char) : List Char → List Char
  | [] => []
  | [c] => if p c then [rep] else [c]
  | c :: d :: cs =>
    if p c then
      if p d then collapseRuns p rep (d :: cs)
      else rep :: collapseRuns p rep (d :: cs)
    else c :: collapseRuns p rep (d :: cs)

/-- `TextProcessor.preprocess`: lowercase, collapse whitespace and strip,
drop characters outside `\w`, whitespace and basic punctuation, collapse
punctuation runs to spaces, optionally remove stop words, final strip. -/
def preprocess (stop_words : Finset String) (text : String)
    (remove_stopwords : Bool) : String :=
  if text = "" then ""
  else
    let text := pyLower text
    let text := String.mk (stripChars (collapseRuns Char.isWhitespace ' ' text.data))
    let text := String.mk (text.data.filter
      (fun c => isWordChar c || c.isWhitespace || isPunctChar c))
    let text := String.mk (collapseRuns isPunctChar ' ' text.data)
    let text :=
      if remove_stopwords then
        pyJoin " " ((pySplit text).filter (fun word => decide (word ∉ stop_words)))
      else text
    String.mk (stripChars text.data)

/-- The seen-set de-duplication loop of `extract_important_terms`
(keeps the first occurrence of each term, preserving order). -/
def dedupFirstSeen (seen : Finset String) : List String → List String
  | [] => []
  | term :: rest =>
    if term ∈ seen then dedupFirstSeen seen rest
    else term :: dedupFirstSeen (insert term seen) rest

/-- `TextProcessor.extract_important_terms`: preprocess (without stop-word
removal), keep tokens that pass the length/stop-word guard and the
importance test, de-duplicate preserving first-seen order, truncate to 10.
The `continue` guard and the include test of the source loop are one
conjunction here. -/
def extract_important_terms (stop_words : Finset String) (text : String) :
    List String :=
  if text = "" then []
  else
    let processed := preprocess stop_words text false
    let words := pySplit processed
    let important_terms := words.filter (fun word => decide
      (¬(word.length ≤ 2 ∨ word ∈ stop_words) ∧
        (4 < word.length ∨ word.data.any Char.isUpper = true ∨
          word ∉ common_words)))
    (dedupFirstSeen ∅ important_terms).take 10

/-- The final-score pipeline exactly as claim C4 states it (spec side,
for refinement comparison only): base = semanticSimilarity; blend with
keywordCoverage 0.7/0.3; multiplicative length penalty; blend with
coherence 0.9/0.1; clamp to [0,1]. -/
def claimed_score_pipeline (ss kc lr coh : ℚ) : ℚ :=
  let base := ss
  let base := base * (7/10) + kc * (3/10)
  let base :=
    if lr < 3/10 then base * (8/10)
    else if 3 < lr then base * (9/10)
    else base
  let base := base * (9/10) + coh * (1/10)
  min (max base 0) 1

/-! ### Helper lemmas -/

theorem listStarts_append (l t : List Char) : listStarts l (l ++ t) = true := by
  induction l with
  | nil => rfl
  | cons a as ih => simp [listStarts, ih]

theorem strStarts_append (a t : String) : strStarts a (a ++ t) = true := by
  simp only [strStarts, String.data_append]
  exact listStarts_append a.data t.data

theorem pyJoin_foldl_ext (sep : String) (l : List String) (acc : String) :
    ∃ t, l.foldl (fun r s => r ++ sep ++ s) acc = acc ++ t := by
  induction l generalizing acc with
  | nil => exact ⟨"", (String.append_empty acc).symm⟩
  | cons b bs ih =>
    obtain ⟨t, ht⟩ := ih (acc ++ sep ++ b)
    refine ⟨sep ++ b ++ t, ?_⟩
    simp only [List.foldl_cons]
    rw [ht, String.append_assoc, String.append_assoc,
      ← String.append_assoc sep b t]

theorem pyJoin_cons_starts (sep a : String) (l : List String) :
    strStarts a (pyJoin sep (a :: l)) = true := by
  obtain ⟨t, ht⟩ := pyJoin_foldl_ext sep l a
  simp only [pyJoin, ht]
  exact strStarts_append a t

theorem fallback_score_eq (q c u : String) (cr : Option (List String)) :
    (evaluate_fallback q c u cr).score =
      min (evaluate_fallback q c u cr).semantic_similarity 1 := rfl

theorem fallback_confidence_eq (q c u : String) (cr : Option (List String)) :
    (evaluate_fallback q c u cr).confidence =
      min ((evaluate_fallback q c u cr).score * 80) 85 := rfl

theorem fallback_sim_bounds (q c u : String) (cr : Option (List String)) :
    0 ≤ (evaluate_fallback q c u cr).semantic_similarity ∧
      (evaluate_fallback q c u cr).semantic_similarity ≤ 1 := by
  simp only [evaluate_fallback]
  have hov : (0:ℚ) ≤
      (if ((pySplit (pyLower c)).toFinset \ fallbackStopWords).card = 0 then 0
       else ((((pySplit (pyLower c)).toFinset \ fallbackStopWords) ∩
          ((pySplit (pyLower u)).toFinset \ fallbackStopWords)).card : ℚ) /
          (((pySplit (pyLower c)).toFinset \ fallbackStopWords).card : ℚ)) ∧
      (if ((pySplit (pyLower c)).toFinset \ fallbackStopWords).card = 0 then (0:ℚ)
       else ((((pySplit (pyLower c)).toFinset \ fallbackStopWords) ∩
          ((pySplit (pyLower u)).toFinset \ fallbackStopWords)).card : ℚ) /
          (((pySplit (pyLower c)).toFinset \ fallbackStopWords).card : ℚ)) ≤ 1 := by
    split
    · norm_num
    · rename_i hcard
      constructor
      · exact div_nonneg (Nat.cast_nonneg _) (Nat.cast_nonneg _)
      · rw [div_le_one (by exact_mod_cast Nat.pos_of_ne_zero hcard)]
        exact_mod_cast Finset.card_le_card Finset.inter_subset_left
  have hlr : (0:ℚ) ≤ min ((u.length : ℚ) / ((max c.length 1 : ℕ) : ℚ)) 1 ∧
      min ((u.length : ℚ) / ((max c.length 1 : ℕ) : ℚ)) 1 ≤ 1 :=
    ⟨le_min (div_nonneg (Nat.cast_nonneg _) (Nat.cast_nonneg _)) zero_le_one,
     min_le_right _ _⟩
  constructor
  · nlinarith [hov.1, hlr.1]
  · nlinarith [hov.2, hlr.2, hov.1, hlr.1]

theorem fallback_score_bounds (q c u : String) (cr : Option (List String)) :
    0 ≤ (evaluate_fallback q c u cr).score ∧
      (evaluate_fallback q c u cr).score ≤ 1 := by
  rw [fallback_score_eq]
  exact ⟨le_min (fallback_sim_bounds q c u cr).1 zero_le_one, min_le_right _ _⟩

theorem fallback_confidence_bounds (q c u : String) (cr : Option (List String)) :
    0 ≤ (evaluate_fallback q c u cr).confidence ∧
      (evaluate_fallback q c u cr).confidence ≤ 85 := by
  rw [fallback_confidence_eq]
  refine ⟨le_min ?_ (by norm_num), min_le_right _ _⟩
  nlinarith [(fallback_score_bounds q c u cr).1]

theorem calculate_confidence_model_bounds (s : ℚ) (a : Analysis) (n : ℕ) :
    10 ≤ calculate_confidence true true s a n ∧
      calculate_confidence true true s a n ≤ 95 := by
  simp only [calculate_confidence, Bool.and_self, if_true]
  exact ⟨le_max_right _ _, max_le (min_le_right _ _) (by norm_num)⟩

theorem calculate_final_score_le_one (s : ℚ) (a : Analysis)
    (cr : Option (List String)) : calculate_final_score s a cr ≤ 1 := by
  simp only [calculate_final_score]
  exact min_le_right _ _

/-- Extraction lemma: a successful run of `evaluate_with_bert` determines
the result record (all stages completed without fault, the similarity is
the encoder's output, and every field is the source formula). -/
theorem evaluate_with_bert_ok (ta mp : Bool) (enc : Except PyErr ℚ)
    (faults : StageFaults) (q c u : String) (cr : Option (List String))
    (r : EvalResult) (h : evaluate_with_bert ta mp enc faults q c u cr = .ok r) :
    ∃ s, enc = .ok s ∧
      r = { score := calculate_final_score s (analyze_answer_components q c u) cr
            confidence := calculate_confidence ta mp s
              (analyze_answer_components q c u) u.length
            feedback := generate_feedback
              (calculate_final_score s (analyze_answer_components q c u) cr) s
              (analyze_answer_components q c u)
            semantic_similarity := s
            detailed_analysis := .bert (analyze_answer_components q c u) } := by
  cases enc with
  | error e => simp [evaluate_with_bert] at h
  | ok s =>
    refine ⟨s, rfl, ?_⟩
    cases hA : faults.analysisFault <;> cases hS : faults.scoreFault <;>
      cases hF : faults.feedbackFault <;> cases hC : faults.confidenceFault <;>
      simp [evaluate_with_bert, runStage, hA, hS, hF, hC] at h <;>
      exact h.symm

/-- Unfolding lemma for `evaluate` on a loaded evaluator and a non-blank
candidate. -/
theorem evaluate_nonblank (ta mp : Bool) (enc : Except PyErr ℚ)
    (faults : StageFaults) (q c u : String) (mm : ℕ)
    (cr : Option (List String)) (hu : ¬ pyStrip u = "") :
    evaluate true ta mp enc faults q c u mm cr =
      if ta && mp then
        match evaluate_with_bert ta mp enc faults q c u cr with
        | .ok r => .ok r
        | .error _ => .ok (evaluate_fallback q c u cr)
      else .ok (evaluate_fallback q c u cr) := by
  unfold evaluate
  rw [if_neg (by decide : ¬(true = false)), if_neg hu]

/-- Path lemma: model path, all stages succeed. -/
theorem evaluate_model_ok (ta mp : Bool) (enc : Except PyErr ℚ)
    (faults : StageFaults) (q c u : String) (mm : ℕ)
    (cr : Option (List String)) (r : EvalResult) (hu : ¬ pyStrip u = "")
    (h3 : (ta && mp) = true)
    (hb : evaluate_with_bert ta mp enc faults q c u cr = .ok r) :
    evaluate true ta mp enc faults q c u mm cr = .ok r := by
  rw [evaluate_nonblank ta mp enc faults q c u mm cr hu, if_pos h3, hb]

/-- Path lemma: model path, some stage raised. -/
theorem evaluate_model_err (ta mp : Bool) (enc : Except PyErr ℚ)
    (faults : StageFaults) (q c u : String) (mm : ℕ)
    (cr : Option (List String)) (e : PyErr) (hu : ¬ pyStrip u = "")
    (h3 : (ta && mp) = true)
    (hb : evaluate_with_bert ta mp enc faults q c u cr = .error e) :
    evaluate true ta mp enc faults q c u mm cr =
      .ok (evaluate_fallback q c u cr) := by
  rw [evaluate_nonblank ta mp enc faults q c u mm cr hu, if_pos h3, hb]

/-- Path lemma: no model available, fallback runs directly. -/
theorem evaluate_nomodel (ta mp : Bool) (enc : Except PyErr ℚ)
    (faults : StageFaults) (q c u : String) (mm : ℕ)
    (cr : Option (List String)) (hu : ¬ pyStrip u = "")
    (h3 : (ta && mp) = false) :
    evaluate true ta mp enc faults q c u mm cr =
      .ok (evaluate_fallback q c u cr) := by
  rw [evaluate_nonblank ta mp enc faults q c u mm cr hu,
    if_neg (by simp [h3])]

/-- The model-path feedback always starts with its score-band sentence. -/
theorem generate_feedback_starts (score ss : ℚ) (a : Analysis) :
    strStarts
      (if 9/10 ≤ score then
        "Excellent answer! You demonstrate a thorough understanding of the concept."
      else if 7/10 ≤ score then
        "Good answer! You show a solid grasp of the main ideas."
      else if 1/2 ≤ score then
        "Fair answer. You understand some key concepts but could improve."
      else
        "Your answer needs improvement. Please review the topic more carefully.")
      (generate_feedback score ss a) = true := by
  simp only [generate_feedback]
  split_ifs <;> exact pyJoin_cons_starts " " _ _

/-- The fallback feedback is exactly its band sentence. -/
theorem fallback_feedback_eq (q c u : String) (cr : Option (List String)) :
    (evaluate_fallback q c u cr).feedback =
      if 8/10 ≤ (evaluate_fallback q c u cr).score then
        "Excellent answer! Shows comprehensive understanding."
      else if 6/10 ≤ (evaluate_fallback q c u cr).score then
        "Good answer with most key concepts covered."
      else if 2/5 ≤ (evaluate_fallback q c u cr).score then
        "Fair answer but missing some important points."
      else
        "Answer needs significant improvement. Please review the topic." := rfl

/-- Keyword coverage, length ratio and coherence of the sample analysis
used by the C8 proofs (reference = candidate = "photosynthesis converts
light energy"). -/
theorem analysis_sample_values :
    (analyze_answer_components "q" "photosynthesis converts light energy"
      "photosynthesis converts light energy").keyword_coverage = 1 ∧
    (analyze_answer_components "q" "photosynthesis converts light energy"
      "photosynthesis converts light energy").length_ratio = 1 ∧
    (analyze_answer_components "q" "photosynthesis converts light energy"
      "photosynthesis converts light energy").semantic_coherence = 1 := by
  refine ⟨?_, ?_, ?_⟩
  · simp only [analyze_answer_components]
    rw [if_pos (by decide :
      extract_keywords "photosynthesis converts light energy" ≠ ∅)]
    norm_num [show ((extract_keywords "photosynthesis converts light energy" ∩
        extract_keywords "photosynthesis converts light energy").card : ℕ)
        = 4 from rfl,
      show ((extract_keywords "photosynthesis converts light energy").card : ℕ)
        = 4 from rfl]
  · simp only [analyze_answer_components]
    norm_num [show ("photosynthesis converts light energy".length : ℕ)
      = 36 from rfl]
  · simp only [analyze_answer_components,
      show splitOnChar '.' ("photosynthesis converts light energy").data =
        [("photosynthesis converts light energy").data] from rfl]
    norm_num [List.filter,
      show (stripChars ("photosynthesis converts light energy").data).length
        = 36 from rfl]

/-- Final score of the sample model-path evaluation, as a function of the
encoder similarity. -/
theorem calculate_final_score_sample (s : ℚ) :
    calculate_final_score s (analyze_answer_components "q"
        "photosynthesis converts light energy"
        "photosynthesis converts light energy") none =
      min ((s * (7/10) + 3/10) * (9/10) + 1/10) 1 := by
  obtain ⟨hkc, hlr, hco⟩ := analysis_sample_values
  simp only [calculate_final_score, hkc, hlr, hco]
  rw [if_neg (by norm_num), if_neg (by norm_num)]
  ring_nf

/-! ### Claim theorems -/

/-- Claim C1: with the evaluator loaded, a blank or whitespace-only
candidate answer makes `evaluate` return exactly score 0, confidence 100,
semantic similarity 0 and the feedback string "No answer provided.",
independently of the model availability, the encoder outcome and every
later stage (no other component runs). -/
theorem blank_answer_shortcircuit (ta mp : Bool) (enc : Except PyErr ℚ)
    (faults : StageFaults) (q c u : String) (mm : ℕ)
    (cr : Option (List String)) (h : pyStrip u = "") :
    evaluate true ta mp enc faults q c u mm cr = .ok emptyAnswerResult ∧
    emptyAnswerResult.score = 0 ∧ emptyAnswerResult.confidence = 100 ∧
    emptyAnswerResult.semantic_similarity = 0 ∧
    emptyAnswerResult.feedback = "No answer provided." := by
  refine ⟨?_, rfl, rfl, rfl, rfl⟩
  unfold evaluate
  rw [if_neg (by decide : ¬(true = false)), if_pos h]

/-- Witness for C1 at the whitespace-only candidate `"  "`. -/
theorem blank_answer_shortcircuit_witness :
    pyStrip "  " = "" ∧
    evaluate true true true (.ok 1) noFaults "q" "reference" "  " 5 none =
      .ok emptyAnswerResult :=
  ⟨by decide,
   (blank_answer_shortcircuit true true (.ok 1) noFaults "q" "reference" "  "
     5 none (by decide)).1⟩

/-- Claim C5: if the embedding path raises any error, `evaluate` does not
propagate it: it returns the complete fallback evaluation instead. -/
theorem embedding_error_demoted_to_fallback (ta mp : Bool) (e : PyErr)
    (faults : StageFaults) (q c u : String) (mm : ℕ)
    (cr : Option (List String)) (hu : ¬ pyStrip u = "") :
    evaluate true ta mp (.error e) faults q c u mm cr =
      .ok (evaluate_fallback q c u cr) := by
  rw [evaluate_nonblank ta mp (.error e) faults q c u mm cr hu]
  by_cases h : (ta && mp) = true
  · rw [if_pos h]
    rfl
  · rw [if_neg h]

/-- Witness for C5: a concrete encoder exception is demoted. -/
theorem embedding_error_demoted_to_fallback_witness :
    ¬ pyStrip "dog" = "" ∧
    evaluate true true true (.error (.exception "model crashed")) noFaults
        "q" "cat" "dog" 5 none = .ok (evaluate_fallback "q" "cat" "dog" none) :=
  ⟨by decide,
   embedding_error_demoted_to_fallback true true (.exception "model crashed")
     noFaults "q" "cat" "dog" 5 none (by decide)⟩

/-- Counterexample to claim C6 as stated: an exception raised by the
feedback-generation stage (not the embedding call) is *not* propagated to
the caller; `evaluate` swallows it and returns the fallback result. -/
theorem stage_error_not_propagated_cex :
    evaluate true true true (.ok (1/2))
        ⟨none, none, some (.exception "boom"), none⟩ "q" "cat" "cat" 5 none =
      .ok (evaluate_fallback "q" "cat" "cat" none) ∧
    evaluate true true true (.ok (1/2))
        ⟨none, none, some (.exception "boom"), none⟩ "q" "cat" "cat" 5 none ≠
      .error (.exception "boom") := by
  constructor
  · rfl
  · rw [show evaluate true true true (.ok (1/2))
        ⟨none, none, some (.exception "boom"), none⟩ "q" "cat" "cat" 5 none =
        .ok (evaluate_fallback "q" "cat" "cat" none) from rfl]
    intro h
    cases h

/-- Claim C6 amended: the `try` block of `evaluate` wraps the whole model
path, so an exception raised by *any* stage inside it (analysis, scoring,
feedback, confidence) — not only the embedding call — is caught and demoted
to the fallback result instead of propagating. -/
theorem stage_error_demoted_to_fallback (s : ℚ) (faults : StageFaults)
    (q c u : String) (mm : ℕ) (cr : Option (List String)) (e : PyErr)
    (hu : ¬ pyStrip u = "")
    (hb : evaluate_with_bert true true (.ok s) faults q c u cr = .error e) :
    evaluate true true true (.ok s) faults q c u mm cr =
      .ok (evaluate_fallback q c u cr) := by
  rw [evaluate_nonblank true true (.ok s) faults q c u mm cr hu]
  rw [if_pos (by decide : (true && true) = true), hb]

/-- Witness for the amended C6: a concrete analysis-stage exception with a
successful encoder is demoted to the fallback result. -/
theorem stage_error_demoted_to_fallback_witness :
    evaluate true true true (.ok (1/2))
        ⟨some (.exception "analysis failed"), none, none, none⟩
        "q" "ref answer" "user answer" 5 none =
      .ok (evaluate_fallback "q" "ref answer" "user answer" none) :=
  stage_error_demoted_to_fallback (1/2)
    ⟨some (.exception "analysis failed"), none, none, none⟩
    "q" "ref answer" "user answer" 5 none (.exception "analysis failed")
    (by decide) rfl

/-- Claim C10: calling `evaluate` while `_loaded` is false raises
`RuntimeError` for every input (blank candidates included); `load_model`
sets `_loaded` on every path (even when the model fails to load), and once
loaded `evaluate` always returns a result, never that error. -/
theorem not_loaded_raises_then_loaded_never (ta mp : Bool)
    (enc : Except PyErr ℚ) (faults : StageFaults) (q c u : String) (mm : ℕ)
    (cr : Option (List String)) (mi et : Except PyErr Unit)
    (st : EvaluatorState) :
    evaluate false ta mp enc faults q c u mm cr = .error .runtimeError ∧
    (load_model ta mi et st).loaded = true ∧
    (evaluate true ta mp enc faults q c u mm cr).toOption.isSome = true := by
  refine ⟨rfl, ?_, ?_⟩
  · unfold load_model
    by_cases h : ta = false
    · rw [if_pos h]
    · rw [if_neg h]
      cases mi with
      | error e => rfl
      | ok v => cases et with
        | error e => rfl
        | ok v => rfl
  · unfold evaluate
    rw [if_neg (by decide : ¬(true = false))]
    by_cases h2 : pyStrip u = ""
    · rw [if_pos h2]
      rfl
    · rw [if_neg h2]
      by_cases h3 : (ta && mp) = true
      · rw [if_pos h3]
        cases hb : evaluate_with_bert ta mp enc faults q c u cr with
        | ok r => rfl
        | error e => rfl
      · rw [if_neg h3]
        rfl

/-- Counterexample to claim C2 as stated: when the embedding-path cosine
similarity is negative, `evaluate` returns it unclamped (here
semanticSimilarity = -1/2 and score = -9/200, both outside [0,1]). -/
theorem negative_similarity_unclamped_cex :
    (evaluate true true true (.ok (-(1:ℚ)/2)) noFaults "q" "cat" "cat" 5
        none).toOption.map EvalResult.semantic_similarity = some (-(1:ℚ)/2) ∧
    (evaluate true true true (.ok (-(1:ℚ)/2)) noFaults "q" "cat" "cat" 5
        none).toOption.map EvalResult.score = some (-(9:ℚ)/200) ∧
    ¬ (0 ≤ -(1:ℚ)/2) ∧ ¬ (0 ≤ -(9:ℚ)/200) := by
  refine ⟨rfl, ?_, by norm_num, by norm_num⟩
  show some (calculate_final_score (-(1:ℚ)/2)
    (analyze_answer_components "q" "cat" "cat") none) = some (-(9:ℚ)/200)
  have hkc : (analyze_answer_components "q" "cat" "cat").keyword_coverage = 1 := by
    simp only [analyze_answer_components]
    rw [if_pos (by decide : (extract_keywords "cat") ≠ ∅)]
    norm_num [show ((extract_keywords "cat" ∩ extract_keywords "cat").card : ℕ)
      = 1 from rfl, show ((extract_keywords "cat").card : ℕ) = 1 from rfl]
  have hlr : (analyze_answer_components "q" "cat" "cat").length_ratio = 1 := by
    simp only [analyze_answer_components]
    norm_num [show "cat".length = 3 from rfl]
  have hco : (analyze_answer_components "q" "cat" "cat").semantic_coherence = 0 := by
    simp only [analyze_answer_components]
    norm_num [show (splitOnChar '.' "cat".data) = ["cat".data] from rfl,
      show (stripChars "cat".data).length = 3 from rfl]
  simp only [calculate_final_score, hkc, hlr, hco]
  norm_num [min_def]

/-- Claim C2 amended: `evaluate` always returns score ≤ 1 (upper clamp on
both paths) and on the fallback path both score and semanticSimilarity lie
in [0,1]; on the model path semanticSimilarity is the raw cosine value and
neither it nor the score is clamped below 0. -/
theorem score_similarity_ranges (ta mp : Bool) (enc : Except PyErr ℚ)
    (q c u : String) (mm : ℕ) (cr : Option (List String))
    (hu : ¬ pyStrip u = "") :
    (∀ r, evaluate true ta mp enc noFaults q c u mm cr = .ok r →
      r.score ≤ 1) ∧
    (∀ faults r, (ta && mp) = false →
      evaluate true ta mp enc faults q c u mm cr = .ok r →
      0 ≤ r.score ∧ r.score ≤ 1 ∧
      0 ≤ r.semantic_similarity ∧ r.semantic_similarity ≤ 1) := by
  constructor
  · intro r hr
    by_cases h3 : (ta && mp) = true
    · cases hb : evaluate_with_bert ta mp enc noFaults q c u cr with
      | ok r2 =>
        have h2 := (evaluate_model_ok ta mp enc noFaults q c u mm cr r2 hu
          h3 hb).symm.trans hr
        injection h2 with h2
        obtain ⟨s, _, hres⟩ := evaluate_with_bert_ok ta mp enc noFaults
          q c u cr r2 hb
        rw [← h2, hres]
        exact calculate_final_score_le_one s _ cr
      | error e =>
        have h2 := (evaluate_model_err ta mp enc noFaults q c u mm cr e hu
          h3 hb).symm.trans hr
        injection h2 with h2
        rw [← h2]
        exact (fallback_score_bounds q c u cr).2
    · have h2 := (evaluate_nomodel ta mp enc noFaults q c u mm cr hu
        (by revert h3; cases (ta && mp) <;> simp)).symm.trans hr
      injection h2 with h2
      rw [← h2]
      exact (fallback_score_bounds q c u cr).2
  · intro faults r h3 hr
    have h2 := (evaluate_nomodel ta mp enc faults q c u mm cr hu h3).symm.trans hr
    injection h2 with h2
    rw [← h2]
    exact ⟨(fallback_score_bounds q c u cr).1, (fallback_score_bounds q c u cr).2,
      (fallback_sim_bounds q c u cr).1, (fallback_sim_bounds q c u cr).2⟩

/-- Witness for the amended C2 on a concrete fallback evaluation. -/
theorem score_similarity_ranges_witness :
    0 ≤ (evaluate_fallback "q" "cat dog" "z" none).score ∧
    (evaluate_fallback "q" "cat dog" "z" none).score ≤ 1 ∧
    0 ≤ (evaluate_fallback "q" "cat dog" "z" none).semantic_similarity ∧
    (evaluate_fallback "q" "cat dog" "z" none).semantic_similarity ≤ 1 :=
  (score_similarity_ranges false false (.ok 0) "q" "cat dog" "z" 5 none
    (by decide)).2 noFaults (evaluate_fallback "q" "cat dog" "z" none)
    rfl rfl

/-- Counterexample to claim C3 as stated: the fallback path applies no
floor of 10 to the confidence; for reference "cat dog" and candidate "z"
`evaluate` returns confidence 24/7 < 10. -/
theorem fallback_confidence_below_floor_cex :
    (evaluate true false false (.ok 0) noFaults "q" "cat dog" "z" 5
        none).toOption.map EvalResult.confidence = some ((24:ℚ)/7) ∧
    (24:ℚ)/7 < 10 := by
  constructor
  · show some ((evaluate_fallback "q" "cat dog" "z" none).confidence) = _
    have hc : ((pySplit (pyLower "cat dog")).toFinset \ fallbackStopWords).card
        = 2 := rfl
    have hi : (((pySplit (pyLower "cat dog")).toFinset \ fallbackStopWords) ∩
        ((pySplit (pyLower "z")).toFinset \ fallbackStopWords)).card = 0 := rfl
    simp only [evaluate_fallback, hc, hi, show "z".length = 1 from rfl,
      show "cat dog".length = 7 from rfl]
    norm_num [min_def]
  · norm_num

/-- Claim C3 amended: confidence lies in [10, 95] on the successful model
path; on the fallback path it equals min(score·80, 85), so it lies in
[0, 85] with no floor of 10. -/
theorem confidence_ranges (s : ℚ) (q c u : String) (mm : ℕ)
    (cr : Option (List String)) (hu : ¬ pyStrip u = "") :
    (∀ r, evaluate true true true (.ok s) noFaults q c u mm cr = .ok r →
      10 ≤ r.confidence ∧ r.confidence ≤ 95) ∧
    (∀ (ta mp : Bool) (enc : Except PyErr ℚ) (faults : StageFaults) r,
      (ta && mp) = false →
      evaluate true ta mp enc faults q c u mm cr = .ok r →
      r.confidence = min (r.score * 80) 85 ∧
      0 ≤ r.confidence ∧ r.confidence ≤ 85) := by
  constructor
  · intro r hr
    have hb : evaluate_with_bert true true (.ok s) noFaults q c u cr =
        .ok { score := calculate_final_score s (analyze_answer_components q c u) cr
              confidence := calculate_confidence true true s
                (analyze_answer_components q c u) u.length
              feedback := generate_feedback
                (calculate_final_score s (analyze_answer_components q c u) cr) s
                (analyze_answer_components q c u)
              semantic_similarity := s
              detailed_analysis := .bert (analyze_answer_components q c u) } := rfl
    have h2 := (evaluate_model_ok true true (.ok s) noFaults q c u mm cr _ hu
      rfl hb).symm.trans hr
    injection h2 with h2
    rw [← h2]
    exact calculate_confidence_model_bounds s _ u.length
  · intro ta mp enc faults r h3 hr
    have h2 := (evaluate_nomodel ta mp enc faults q c u mm cr hu h3).symm.trans hr
    injection h2 with h2
    rw [← h2]
    exact ⟨fallback_confidence_eq q c u cr,
      (fallback_confidence_bounds q c u cr).1,
      (fallback_confidence_bounds q c u cr).2⟩

/-- Witness for the amended C3 on both paths at concrete inputs. -/
theorem confidence_ranges_witness :
    (10 ≤ calculate_confidence true true (4/5)
        (analyze_answer_components "q" "cat" "cat") "cat".length ∧
      calculate_confidence true true (4/5)
        (analyze_answer_components "q" "cat" "cat") "cat".length ≤ 95) ∧
    (0 ≤ (evaluate_fallback "q" "cat dog" "z" none).confidence ∧
      (evaluate_fallback "q" "cat dog" "z" none).confidence ≤ 85) :=
  ⟨(confidence_ranges (4/5) "q" "cat" "cat" 5 none (by decide)).1 _ rfl,
   ⟨((confidence_ranges (4/5) "q" "cat dog" "z" 5 none (by decide)).2
      false false (.ok 0) noFaults _ rfl rfl).2.1,
    ((confidence_ranges (4/5) "q" "cat dog" "z" 5 none (by decide)).2
      false false (.ok 0) noFaults _ rfl rfl).2.2⟩⟩

/-- Counterexample to claim C4 as stated: on the fallback path the
returned score is min(semanticSimilarity, 1), not the weighted pipeline.
For reference "cat", candidate "dog": score = 3/10, while the claimed
pipeline applied to the result's values (semanticSimilarity 3/10,
keywordCoverage 0, lengthRatio 1, coherence 3/10) yields 219/1000. -/
theorem fallback_score_not_pipeline_cex :
    evaluate true false false (.ok 0) noFaults "q" "cat" "dog" 5 none =
      .ok (evaluate_fallback "q" "cat" "dog" none) ∧
    (evaluate_fallback "q" "cat" "dog" none).score = 3/10 ∧
    (evaluate_fallback "q" "cat" "dog" none).semantic_similarity = 3/10 ∧
    (evaluate_fallback "q" "cat" "dog" none).detailed_analysis =
      .fallback "Answer length: 3 chars (expected ~3)" 0 (3/10) 0 1 ∧
    claimed_score_pipeline (3/10) 0 1 (3/10) = 219/1000 ∧
    (3:ℚ)/10 ≠ 219/1000 := by
  have hc : ((pySplit (pyLower "cat")).toFinset \ fallbackStopWords).card
      = 1 := rfl
  have hi : (((pySplit (pyLower "cat")).toFinset \ fallbackStopWords) ∩
      ((pySplit (pyLower "dog")).toFinset \ fallbackStopWords)).card = 0 := rfl
  refine ⟨rfl, ?_, ?_, ?_, ?_, by norm_num⟩
  · simp only [evaluate_fallback, hc, hi, show "dog".length = 3 from rfl,
      show "cat".length = 3 from rfl]
    norm_num [min_def]
  · simp only [evaluate_fallback, hc, hi, show "dog".length = 3 from rfl,
      show "cat".length = 3 from rfl]
    norm_num [min_def]
  · simp only [evaluate_fallback, hc, hi, show "dog".length = 3 from rfl,
      show "cat".length = 3 from rfl, Detailed.fallback.injEq]
    norm_num [min_def]
    decide
  · simp only [claimed_score_pipeline]
    norm_num [min_def, max_def]

/-- Claim C4 amended: on the model path the returned score equals the
weighted pipeline (0.7/0.3 keyword blend, multiplicative length penalty,
0.9/0.1 coherence blend) clamped above at 1 only; criteria have no effect
on the result; on the fallback path the score is min(semanticSimilarity, 1)
instead of the pipeline. -/
theorem model_score_is_pipeline (s : ℚ) (q c u : String) (mm : ℕ)
    (cr : Option (List String)) (hu : ¬ pyStrip u = "") :
    (∀ r, evaluate true true true (.ok s) noFaults q c u mm cr = .ok r →
      r.score = min
        ((s * (7/10) +
            (analyze_answer_components q c u).keyword_coverage * (3/10)) *
          (if (analyze_answer_components q c u).length_ratio < 3/10 then 8/10
           else if 3 < (analyze_answer_components q c u).length_ratio then 9/10
           else 1) * (9/10) +
          (analyze_answer_components q c u).semantic_coherence * (1/10)) 1) ∧
    (∀ r, evaluate true false false (.ok s) noFaults q c u mm cr = .ok r →
      r.score = min (evaluate_fallback q c u cr).semantic_similarity 1) ∧
    (∀ cr2 : Option (List String),
      evaluate true true true (.ok s) noFaults q c u mm cr =
        evaluate true true true (.ok s) noFaults q c u mm cr2) := by
  refine ⟨?_, ?_, ?_⟩
  · intro r hr
    have hb : evaluate_with_bert true true (.ok s) noFaults q c u cr =
        .ok { score := calculate_final_score s (analyze_answer_components q c u) cr
              confidence := calculate_confidence true true s
                (analyze_answer_components q c u) u.length
              feedback := generate_feedback
                (calculate_final_score s (analyze_answer_components q c u) cr) s
                (analyze_answer_components q c u)
              semantic_similarity := s
              detailed_analysis := .bert (analyze_answer_components q c u) } := rfl
    have h2 := (evaluate_model_ok true true (.ok s) noFaults q c u mm cr _ hu
      rfl hb).symm.trans hr
    injection h2 with h2
    rw [← h2]
    show calculate_final_score s (analyze_answer_components q c u) cr = _
    simp only [calculate_final_score]
    split_ifs <;> ring_nf
  · intro r hr
    have h2 := (evaluate_nomodel false false (.ok s) noFaults q c u mm cr hu
      rfl).symm.trans hr
    injection h2 with h2
    rw [← h2]
    exact fallback_score_eq q c u cr
  · intro cr2
    rfl

/-- Witness for the amended C4: concrete fallback score is the min-clamped
similarity, not the pipeline. -/
theorem model_score_is_pipeline_witness :
    (evaluate_fallback "q" "cat" "dog" none).score =
      min (evaluate_fallback "q" "cat" "dog" none).semantic_similarity 1 :=
  (model_score_is_pipeline 0 "q" "cat" "dog" 5 none (by decide)).2.1 _ rfl

/-- Claim C7: on the fallback (no-model) path the returned
semanticSimilarity equals 0.7·wordOverlapRatio + 0.3·min(|candidate| /
max(|reference|, 1), 1), where wordOverlapRatio is recall of the
reference's lowercased whitespace-split stop-word-free token set (no
short-token filtering), and 0 when that reference set is empty. -/
theorem fallback_similarity_formula (ta mp : Bool) (enc : Except PyErr ℚ)
    (faults : StageFaults) (q c u : String) (mm : ℕ)
    (cr : Option (List String)) (hu : ¬ pyStrip u = "")
    (h3 : (ta && mp) = false) :
    ∀ r, evaluate true ta mp enc faults q c u mm cr = .ok r →
      r.semantic_similarity =
        (7/10) * (if ((pySplit (pyLower c)).toFinset \ fallbackStopWords) = ∅
            then 0
            else ((((pySplit (pyLower c)).toFinset \ fallbackStopWords) ∩
                ((pySplit (pyLower u)).toFinset \ fallbackStopWords)).card : ℚ) /
              ((((pySplit (pyLower c)).toFinset \ fallbackStopWords)).card : ℚ)) +
        (3/10) * min ((u.length : ℚ) / ((max c.length 1 : ℕ) : ℚ)) 1 := by
  intro r hr
  have h2 := (evaluate_nomodel ta mp enc faults q c u mm cr hu h3).symm.trans hr
  injection h2 with h2
  rw [← h2]
  show (evaluate_fallback q c u cr).semantic_similarity = _
  simp only [evaluate_fallback, Finset.card_eq_zero]
  split_ifs <;> ring

/-- Witness for C7 on the spec's own fallback-determinism example. -/
theorem fallback_similarity_formula_witness :
    (evaluate_fallback "q"
        "Photosynthesis converts light energy into chemical energy"
        "Plants convert light into chemical energy" none).semantic_similarity
      = 389/570 := by
  have h := fallback_similarity_formula false false (.ok 0) noFaults "q"
    "Photosynthesis converts light energy into chemical energy"
    "Plants convert light into chemical energy" 5 none (by decide) rfl
    (evaluate_fallback "q"
      "Photosynthesis converts light energy into chemical energy"
      "Plants convert light into chemical energy" none) rfl
  rw [h, if_neg (by decide)]
  norm_num [show ((((pySplit (pyLower "Photosynthesis converts light energy into chemical energy")).toFinset \ fallbackStopWords) ∩
      ((pySplit (pyLower "Plants convert light into chemical energy")).toFinset \ fallbackStopWords)).card : ℕ) = 4 from rfl,
    show (((pySplit (pyLower "Photosynthesis converts light energy into chemical energy")).toFinset \ fallbackStopWords).card : ℕ) = 6 from rfl,
    show ("Plants convert light into chemical energy".length : ℕ) = 41 from rfl,
    show ("Photosynthesis converts light energy into chemical energy".length : ℕ) = 57 from rfl,
    min_def]

/-- Counterexample to claim C8 as stated: on the model path the
"excellent" band starts at 0.9, not 0.8.  With encoder similarity 4/5 and
reference = candidate = "photosynthesis converts light energy", evaluate
returns score 437/500 ≥ 0.8 but the feedback starts with the "good"-band
sentence, not the "excellent" one. -/
theorem model_excellent_band_cex :
    (evaluate true true true (.ok (4/5)) noFaults "q"
        "photosynthesis converts light energy"
        "photosynthesis converts light energy" 5 none).toOption.map
      EvalResult.score = some ((437:ℚ)/500) ∧
    (8:ℚ)/10 ≤ 437/500 ∧
    (evaluate true true true (.ok (4/5)) noFaults "q"
        "photosynthesis converts light energy"
        "photosynthesis converts light energy" 5 none).toOption.map
      EvalResult.feedback =
      some "Good answer! You show a solid grasp of the main ideas." ∧
    strStarts "Excellent"
      "Good answer! You show a solid grasp of the main ideas." = false := by
  have hsc : calculate_final_score (4/5) (analyze_answer_components "q"
      "photosynthesis converts light energy"
      "photosynthesis converts light energy") none = 437/500 := by
    rw [calculate_final_score_sample]
    norm_num [min_def]
  refine ⟨?_, by norm_num, ?_, by decide⟩
  · show some (calculate_final_score (4/5) (analyze_answer_components "q"
      "photosynthesis converts light energy"
      "photosynthesis converts light energy") none) = _
    rw [hsc]
  · show some (generate_feedback (calculate_final_score (4/5)
      (analyze_answer_components "q" "photosynthesis converts light energy"
        "photosynthesis converts light energy") none) (4/5)
      (analyze_answer_components "q" "photosynthesis converts light energy"
        "photosynthesis converts light energy")) = _
    obtain ⟨hkc, hlr, _⟩ := analysis_sample_values
    simp only [generate_feedback, hsc, hkc, hlr]
    norm_num
    rfl

/-- Claim C8 amended: on the fallback path the feedback is exactly the
"excellent" sentence when score ≥ 0.8 and the needs-improvement sentence
when score < 0.4; on the model path the feedback starts with the
"excellent" sentence only when score ≥ 0.9 (0.8 is in the "good" band) and
starts with the needs-improvement sentence when score < 0.4. -/
theorem feedback_banding (q c u : String) (mm : ℕ)
    (cr : Option (List String)) (hu : ¬ pyStrip u = "") :
    (∀ (ta mp : Bool) (enc : Except PyErr ℚ) (faults : StageFaults) r,
      (ta && mp) = false →
      evaluate true ta mp enc faults q c u mm cr = .ok r →
      (8/10 ≤ r.score →
        r.feedback = "Excellent answer! Shows comprehensive understanding.") ∧
      (r.score < 2/5 →
        r.feedback =
          "Answer needs significant improvement. Please review the topic.")) ∧
    (∀ (s : ℚ) r,
      evaluate true true true (.ok s) noFaults q c u mm cr = .ok r →
      (9/10 ≤ r.score → strStarts
        "Excellent answer! You demonstrate a thorough understanding of the concept."
        r.feedback = true) ∧
      (r.score < 2/5 → strStarts
        "Your answer needs improvement. Please review the topic more carefully."
        r.feedback = true)) := by
  constructor
  · intro ta mp enc faults r h3 hr
    have h2 := (evaluate_nomodel ta mp enc faults q c u mm cr hu h3).symm.trans hr
    injection h2 with h2
    rw [← h2]
    constructor
    · intro h8
      rw [fallback_feedback_eq, if_pos h8]
    · intro h4
      rw [fallback_feedback_eq, if_neg (by linarith), if_neg (by linarith),
        if_neg (by linarith)]
  · intro s r hr
    have hb : evaluate_with_bert true true (.ok s) noFaults q c u cr =
        .ok { score := calculate_final_score s (analyze_answer_components q c u) cr
              confidence := calculate_confidence true true s
                (analyze_answer_components q c u) u.length
              feedback := generate_feedback
                (calculate_final_score s (analyze_answer_components q c u) cr) s
                (analyze_answer_components q c u)
              semantic_similarity := s
              detailed_analysis := .bert (analyze_answer_components q c u) } := rfl
    have h2 := (evaluate_model_ok true true (.ok s) noFaults q c u mm cr _ hu
      rfl hb).symm.trans hr
    injection h2 with h2
    rw [← h2]
    have hS := generate_feedback_starts
      (calculate_final_score s (analyze_answer_components q c u) cr) s
      (analyze_answer_components q c u)
    constructor
    · intro h9
      rw [if_pos (show (9:ℚ)/10 ≤ calculate_final_score s
        (analyze_answer_components q c u) cr from h9)] at hS
      exact hS
    · intro h4
      have h4' : calculate_final_score s (analyze_answer_components q c u) cr
          < 2/5 := h4
      rw [if_neg (by linarith), if_neg (by linarith),
        if_neg (by linarith)] at hS
      exact hS

/-- Witness for the amended C8: a perfect fallback answer gets the
"excellent" sentence, and a perfect model-path answer (encoder similarity
1) gets feedback starting with the model-path "excellent" sentence. -/
theorem feedback_banding_witness :
    (evaluate_fallback "q" "cat" "cat" none).feedback =
      "Excellent answer! Shows comprehensive understanding." ∧
    strStarts
      "Excellent answer! You demonstrate a thorough understanding of the concept."
      (generate_feedback (calculate_final_score 1 (analyze_answer_components "q"
          "photosynthesis converts light energy"
          "photosynthesis converts light energy") none) 1
        (analyze_answer_components "q" "photosynthesis converts light energy"
          "photosynthesis converts light energy")) = true := by
  constructor
  · refine ((feedback_banding "q" "cat" "cat" 5 none (by decide)).1
      false false (.ok 0) noFaults _ rfl rfl).1 ?_
    have hc : ((pySplit (pyLower "cat")).toFinset \ fallbackStopWords).card
        = 1 := rfl
    have hi : (((pySplit (pyLower "cat")).toFinset \ fallbackStopWords) ∩
        ((pySplit (pyLower "cat")).toFinset \ fallbackStopWords)).card = 1 := rfl
    show (8:ℚ)/10 ≤ (evaluate_fallback "q" "cat" "cat" none).score
    simp only [evaluate_fallback, hc, hi, show "cat".length = 3 from rfl]
    norm_num [min_def]
  · refine ((feedback_banding "q" "photosynthesis converts light energy"
      "photosynthesis converts light energy" 5 none (by decide)).2 1 _ rfl).1 ?_
    show (9:ℚ)/10 ≤ calculate_final_score 1 (analyze_answer_components "q"
      "photosynthesis converts light energy"
      "photosynthesis converts light energy") none
    rw [calculate_final_score_sample]
    norm_num [min_def]

/-! ### Lemmas for `extract_important_terms` (claim C9) -/

theorem toLower_isUpper_false (c : Char) : (c.toLower).isUpper = false := by
  have h65 : ((65 : UInt32).toBitVec).toNat = 65 := rfl
  have h90 : ((90 : UInt32).toBitVec).toNat = 90 := rfl
  rw [Char.toLower]
  by_cases h : c.toNat ≥ 65 ∧ c.toNat ≤ 90
  · rw [if_pos h]
    have hv : (c.toNat + 32).isValidChar := Or.inl (by omega)
    rw [Char.ofNat, dif_pos hv]
    simp only [Char.ofNatAux, Char.isUpper, UInt32.le_def, BitVec.le_def,
      BitVec.toNat_ofNatLt, Bool.and_eq_false_iff, decide_eq_false_iff_not,
      h65, h90]
    right
    omega
  · rw [if_neg h]
    simp only [Char.isUpper, UInt32.le_def, BitVec.le_def,
      Bool.and_eq_false_iff, decide_eq_false_iff_not, h65, h90]
    rw [Decidable.not_and_iff_or_not] at h
    rcases h with h | h
    · left
      intro hc
      apply h
      simp only [Char.toNat, UInt32.toNat] at *
      omega
    · right
      intro hc
      apply h
      simp only [Char.toNat, UInt32.toNat] at *
      omega

theorem collapseRuns_mem (p : Char → Bool) (rep : Char) (l : List Char) :
    ∀ c ∈ collapseRuns p rep l, c ∈ l ∨ c = rep := by
  induction l with
  | nil => intro c hc; simp [collapseRuns] at hc
  | cons a t ih =>
    cases t with
    | nil =>
      intro c hc
      by_cases hp : p a
      · simp [collapseRuns, hp] at hc
        right; exact hc
      · simp [collapseRuns, hp] at hc
        left; simp [hc]
    | cons b t2 =>
      intro c hc
      by_cases hpa : p a
      · by_cases hpb : p b
        · simp only [collapseRuns, if_pos hpa, if_pos hpb] at hc
          rcases ih c hc with h | h
          · exact Or.inl (List.mem_cons_of_mem a h)
          · exact Or.inr h
        · simp only [collapseRuns, if_pos hpa, if_neg hpb] at hc
          rcases List.mem_cons.mp hc with h | h
          · exact Or.inr h
          · rcases ih c h with h2 | h2
            · exact Or.inl (List.mem_cons_of_mem a h2)
            · exact Or.inr h2
      · simp only [collapseRuns, if_neg hpa] at hc
        rcases List.mem_cons.mp hc with h | h
        · exact Or.inl (by simp [h])
        · rcases ih c h with h2 | h2
          · exact Or.inl (List.mem_cons_of_mem a h2)
          · exact Or.inr h2

theorem stripChars_subset (l : List Char) : stripChars l ⊆ l := by
  intro c hc
  simp only [stripChars, List.mem_reverse] at hc
  exact List.dropWhile_subset _
    (List.mem_reverse.mp (List.dropWhile_subset _ hc))

theorem wsSplitAux_mem (l : List Char) :
    ∀ (acc : List Char) (t : List Char), t ∈ wsSplitAux l acc →
      ∀ c ∈ t, c ∈ l ∨ c ∈ acc := by
  induction l with
  | nil =>
    intro acc t ht c hc
    by_cases ha : acc = ([] : List Char)
    · simp [wsSplitAux, ha] at ht
    · simp only [wsSplitAux, if_neg ha, List.mem_singleton] at ht
      subst ht
      exact Or.inr (List.mem_reverse.mp hc)
  | cons a t2 ih =>
    intro acc t ht c hc
    by_cases hw : a.isWhitespace
    · by_cases ha : acc = ([] : List Char)
      · simp only [wsSplitAux, if_pos hw, if_pos ha] at ht
        rcases ih [] t ht c hc with h | h
        · exact Or.inl (List.mem_cons_of_mem a h)
        · simp at h
      · simp only [wsSplitAux, if_pos hw, if_neg ha, List.mem_cons] at ht
        rcases ht with h | h
        · subst h
          exact Or.inr (List.mem_reverse.mp hc)
        · rcases ih [] t h c hc with h2 | h2
          · exact Or.inl (List.mem_cons_of_mem a h2)
          · simp at h2
    · simp only [wsSplitAux, if_neg hw] at ht
      rcases ih (a :: acc) t ht c hc with h | h
      · exact Or.inl (List.mem_cons_of_mem a h)
      · rcases List.mem_cons.mp h with h2 | h2
        · exact Or.inl (by simp [h2])
        · exact Or.inr h2

theorem pySplit_chars (s : String) (w : String) (hw : w ∈ pySplit s) :
    ∀ c ∈ w.data, c ∈ s.data := by
  intro c hc
  simp only [pySplit, List.mem_map] at hw
  obtain ⟨t, ht, hwt⟩ := hw
  have hcd : c ∈ t := by
    rw [← hwt] at hc
    exact hc
  rcases wsSplitAux_mem s.data [] t ht c hcd with h | h
  · exact h
  · simp at h

/-- Preprocessing without stop-word removal yields no uppercase character:
the text is lowercased first and later steps only keep original characters
or insert spaces. -/
theorem preprocess_no_upper (sw : Finset String) (t : String) :
    ∀ c ∈ (preprocess sw t false).data, c.isUpper = false := by
  intro c hc
  by_cases h0 : t = ""
  · simp [preprocess, h0] at hc
  · simp only [preprocess, if_neg h0, if_neg (Bool.false_ne_true)] at hc
    have h1 := stripChars_subset _ hc
    rcases collapseRuns_mem isPunctChar ' ' _ c h1 with h2 | h2
    · have h3 := List.mem_filter.mp h2
      have h4 := stripChars_subset _ h3.1
      rcases collapseRuns_mem Char.isWhitespace ' ' _ c h4 with h5 | h5
      · simp only [pyLower, List.mem_map] at h5
        obtain ⟨d, _, hd⟩ := h5
        rw [← hd]
        exact toLower_isUpper_false d
      · rw [h5]; rfl
    · rw [h2]; rfl

theorem dedupFirstSeen_sublist (l : List String) :
    ∀ seen : Finset String, List.Sublist (dedupFirstSeen seen l) l := by
  induction l with
  | nil => intro seen; exact List.Sublist.refl _
  | cons a t ih =>
    intro seen
    by_cases h : a ∈ seen
    · simp only [dedupFirstSeen, if_pos h]
      exact (ih seen).cons a
    · simp only [dedupFirstSeen, if_neg h]
      exact (ih (insert a seen)).cons₂ a

theorem dedupFirstSeen_nodup (l : List String) :
    ∀ seen : Finset String, (dedupFirstSeen seen l).Nodup ∧
      ∀ x ∈ dedupFirstSeen seen l, x ∉ seen := by
  induction l with
  | nil => intro seen; exact ⟨List.nodup_nil, by simp [dedupFirstSeen]⟩
  | cons a t ih =>
    intro seen
    by_cases h : a ∈ seen
    · simp only [dedupFirstSeen, if_pos h]
      exact ih seen
    · simp only [dedupFirstSeen, if_neg h]
      obtain ⟨hnd, hmem⟩ := ih (insert a seen)
      refine ⟨List.nodup_cons.mpr ⟨fun hcon => ?_, hnd⟩, ?_⟩
      · exact hmem a hcon (Finset.mem_insert_self a seen)
      · intro x hx
        rcases List.mem_cons.mp hx with h2 | h2
        · rw [h2]; exact h
        · exact fun hcon =>
            hmem x h2 (Finset.mem_insert_of_mem hcon)

/-! ### Claim C9 -/

set_option maxRecDepth 8000 in
/-- Counterexample to claim C9 as stated: `extract_important_terms`
lowercases before testing for uppercase characters, so a short common word
that is uppercase in the original text ("CAME") is *not* kept — the claim
requires it to be kept. -/
theorem uppercase_term_not_kept_cex :
    extract_important_terms tpStopWords "CAME" = [] ∧
    "CAME".data.any Char.isUpper = true := by
  exact ⟨by decide, by decide⟩

/-- Claim C9 amended: `extract_important_terms` returns at most 10 terms,
without duplicates, in first-seen order (a sublist of the filtered token
stream), every kept term has length > 2, is no stop word, and — because the
text is lowercased before the uppercase test, which therefore never fires —
satisfies length > 4 or absence from the common-word set; an uppercase
character in the original text gives no exemption. -/
theorem important_terms_properties (sw : Finset String) (t : String) :
    (extract_important_terms sw t).length ≤ 10 ∧
    (extract_important_terms sw t).Nodup ∧
    List.Sublist (extract_important_terms sw t)
      ((pySplit (preprocess sw t false)).filter (fun word => decide
        (¬(word.length ≤ 2 ∨ word ∈ sw) ∧
          (4 < word.length ∨ word.data.any Char.isUpper = true ∨
            word ∉ common_words)))) ∧
    ∀ w ∈ extract_important_terms sw t,
      2 < w.length ∧ w ∉ sw ∧ w.data.any Char.isUpper = false ∧
        (4 < w.length ∨ w ∉ common_words) := by
  by_cases h0 : t = ""
  · refine ⟨?_, ?_, ?_, ?_⟩ <;>
      simp [extract_important_terms, h0]
  · have hsub : List.Sublist (extract_important_terms sw t)
        ((pySplit (preprocess sw t false)).filter (fun word => decide
          (¬(word.length ≤ 2 ∨ word ∈ sw) ∧
            (4 < word.length ∨ word.data.any Char.isUpper = true ∨
              word ∉ common_words)))) := by
      simp only [extract_important_terms, if_neg h0]
      exact (List.take_sublist _ _).trans (dedupFirstSeen_sublist _ ∅)
    refine ⟨?_, ?_, hsub, ?_⟩
    · simp only [extract_important_terms, if_neg h0]
      rw [List.length_take]
      exact min_le_left _ _
    · simp only [extract_important_terms, if_neg h0]
      exact ((List.take_sublist _ _).nodup (dedupFirstSeen_nodup _ ∅).1)
    · intro w hw
      have hmem := hsub.subset hw
      have hf := List.mem_filter.mp hmem
      have hcond := of_decide_eq_true hf.2
      have hup : w.data.any Char.isUpper = false := by
        rw [List.any_eq_false]
        intro c hcw
        have hcp := pySplit_chars (preprocess sw t false) w hf.1 c hcw
        simp only [Bool.not_eq_true]
        exact preprocess_no_upper sw t c hcp
      obtain ⟨hguard, hkeep⟩ := hcond
      rw [not_or] at hguard
      refine ⟨by omega, hguard.2, hup, ?_⟩
      rcases hkeep with h | h | h
      · exact Or.inl h
      · rw [hup] at h; cases h
      · exact Or.inr h

set_option maxRecDepth 8000 in
/-- Witness for the amended C9 on a concrete text. -/
theorem important_terms_properties_witness :
    2 < ("photosynthesis" : String).length ∧
    "photosynthesis" ∉ tpStopWords ∧
    ("photosynthesis" : String).data.any Char.isUpper = false ∧
    (4 < ("photosynthesis" : String).length ∨
      "photosynthesis" ∉ common_words) :=
  (important_terms_properties tpStopWords
    "Photosynthesis is a process of Plants").2.2.2 "photosynthesis"
    (by decide)

end SmartQuiz
